import Mathlib

/-!
Verification of the Elios4You device-communication client
(`custom_components/4noks_elios4you/api.py`).

The Python client is shallowly embedded: dictionaries become ordered
association lists, Python numbers become `Int`/`Rat`, device and socket
behaviour becomes an explicit outcome parameter, and a raised exception
becomes the `Except.error` constructor.
-/

set_option maxRecDepth 4000

namespace Elios4You

/-! ## Python string primitives used by the client -/

/-- Model of Python `str.lower()` for one character (ASCII). -/
def pyLowerChar (c : Char) : Char := c.toLower

/-- Model of Python `str.lower()`. -/
def pyLower (s : String) : String := String.mk (s.data.map pyLowerChar)

/-- Characters treated as whitespace by Python `str.strip()`. -/
def isPySpace (c : Char) : Bool :=
  c = ' ' || c = '\t' || c = '\n' || c = '\r' || c = '\x0b' || c = '\x0c'

/-- Model of Python `str.strip()` with no arguments. -/
def pyStrip (s : String) : String :=
  String.mk (((s.data.dropWhile isPySpace).reverse.dropWhile isPySpace).reverse)

/-- Model of Python `str.replace(" ", "_")` (single-character replacement). -/
def pySpaceToUnderscore (s : String) : String :=
  String.mk (s.data.map (fun c => if c = ' ' then '_' else c))

/-- Split a character list on a separator character, keeping empty pieces,
as Python `str.split(sep)` does for a one-character separator. -/
def charSplitL (sep : Char) : List Char → List Char → List (List Char)
  | [], acc => [acc.reverse]
  | c :: rest, acc =>
      if c = sep then acc.reverse :: charSplitL sep rest []
      else charSplitL sep rest (c :: acc)

/-- Model of Python `str.split(sep)` for a one-character separator. -/
def charSplit (sep : Char) (s : String) : List String :=
  (charSplitL sep s.data []).map String.mk

/-- Model of Python slicing `s[0:n]` on a string. -/
def pyTake (n : Nat) (s : String) : String := String.mk (s.data.take n)

/-- Whether a character list starts with another (helper for substring test). -/
def startsWithL : List Char → List Char → Bool
  | [], _ => true
  | _ :: _, [] => false
  | a :: as, b :: bs => a = b && startsWithL as bs

/-- Whether `n` occurs as a contiguous run inside `h`. -/
def listSub (n : List Char) : List Char → Bool
  | [] => n.isEmpty
  | c :: rest => startsWithL n (c :: rest) || listSub n rest

/-- Model of Python `needle in hay` on strings. -/
def pyContains (needle hay : String) : Bool := listSub needle.data hay.data

/-- Model of Python `str.splitlines()` (handles `\n`, `\r` and `\r\n`;
a trailing terminator produces no trailing empty line). -/
def pySplitlinesL : List Char → List Char → List String
  | [], acc => if acc.isEmpty then [] else [String.mk acc.reverse]
  | '\r' :: '\n' :: rest, acc => String.mk acc.reverse :: pySplitlinesL rest []
  | '\r' :: rest, acc => String.mk acc.reverse :: pySplitlinesL rest []
  | '\n' :: rest, acc => String.mk acc.reverse :: pySplitlinesL rest []
  | c :: rest, acc => pySplitlinesL rest (c :: acc)

/-- Model of Python `str.splitlines()`. -/
def pySplitlines (s : String) : List String := pySplitlinesL s.data []

/-! ## Python numeric primitives

Python floats are idealised as exact decimal numbers `m / 10 ^ e`
(the device protocol only ever produces plain decimal literals, and the
client only subtracts them and rounds to 2 decimal places, which stays
inside the decimals). The representation is kept canonical (smallest
possible exponent) so that structural equality is numeric equality. -/

/-- An exact decimal number `m / 10 ^ e`, canonical when `e = 0` or
`m` is not divisible by 10. -/
structure Dec where
  m : Int
  e : Nat
  deriving DecidableEq, Repr

/-- Canonicalise `m / 10 ^ e` by removing trailing powers of ten. -/
def decNorm : Int → Nat → Dec
  | m, 0 => ⟨m, 0⟩
  | m, e + 1 => if m % 10 = 0 then decNorm (m / 10) e else ⟨m, e + 1⟩

/-- The decimal denoting an integer. -/
def decOfInt (z : Int) : Dec := ⟨z, 0⟩

/-- Exact subtraction of decimals. -/
def decSub (a b : Dec) : Dec :=
  let e := max a.e b.e
  decNorm (a.m * (10 : Int) ^ (e - a.e) - b.m * (10 : Int) ^ (e - b.e)) e

/-- Round `m / 10 ^ k` to the nearest integer, ties to even, as Python
`round` does on an exactly representable value. -/
def rndHalfEven (m : Int) (k : Nat) : Int :=
  let d : Int := (10 : Int) ^ k
  let f := Int.fdiv m d
  let r := m - f * d
  if 2 * r < d then f
  else if d < 2 * r then f + 1
  else if f % 2 = 0 then f else f + 1

/-- Model of Python `round(x, 2)` on a float value. -/
def round2 (x : Dec) : Dec :=
  if x.e ≤ 2 then x else decNorm (rndHalfEven x.m (x.e - 2)) 2

/-- Numeric value of a list of decimal digit characters. -/
def digitsToNat (l : List Char) : Nat :=
  l.foldl (fun n c => 10 * n + (c.toNat - 48)) 0

/-- Model of Python `int(value)` on a decimal string: optional surrounding
whitespace, optional sign, then one or more digits; anything else raises
`ValueError`, modelled as `none`. -/
def pyInt? (v : String) : Option Int :=
  let t := (pyStrip v).data
  let sgn : Int := match t with
    | '-' :: _ => -1
    | _ => 1
  let ds : List Char := match t with
    | '-' :: r => r
    | '+' :: r => r
    | r => r
  if ds.isEmpty then none
  else if ds.all Char.isDigit then some (sgn * (digitsToNat ds : Int))
  else none

/-- Model of Python `float(value)` on a plain decimal literal (optional
surrounding whitespace, optional sign, digits with at most one point;
exponent and special forms are not used by the device protocol and are
not modelled). Failure models `ValueError`. -/
def pyFloat? (v : String) : Option Dec :=
  let t := (pyStrip v).data
  let sgn : Int := match t with
    | '-' :: _ => -1
    | _ => 1
  let ds : List Char := match t with
    | '-' :: r => r
    | '+' :: r => r
    | r => r
  match charSplitL '.' ds [] with
  | [ip] =>
      if ip.isEmpty then none
      else if ip.all Char.isDigit then some (decNorm (sgn * (digitsToNat ip : Int)) 0)
      else none
  | [ip, fp] =>
      if ip.isEmpty && fp.isEmpty then none
      else if ip.all Char.isDigit && fp.all Char.isDigit then
        some (decNorm (sgn * ((digitsToNat ip : Int) * (10 : Int) ^ fp.length + (digitsToNat fp : Int))) fp.length)
      else none
  | _ => none

/-! ## Values and the Reading Set

`Elios4YouAPI.data` is a Python dict from field name to int, float or
string.  It is embedded as an ordered association list with Python's
dict update semantics: updating an existing key replaces it in place,
a new key is appended at the end. -/

/-- A value stored in the Reading Set: Python int, float or str. -/
inductive Val where
  | i : Int → Val
  | f : Dec → Val
  | s : String → Val
  deriving DecidableEq, Repr

/-- The Reading Set: ordered key/value pairs. -/
abbrev Data := List (String × Val)

/-- Python `d[k] = v`: replace in place if present, else append. -/
def dictSet (d : List (String × α)) (k : String) (v : α) : List (String × α) :=
  if d.any (fun p => p.1 = k) then
    d.map (fun p => if p.1 = k then (k, v) else p)
  else d ++ [(k, v)]

/-- Python `d[k]` (`none` models a `KeyError`). -/
def dictGet? (d : List (String × α)) (k : String) : Option α :=
  (d.find? (fun p => p.1 = k)).map (fun p => p.2)

/-- Modelled from the spec: the manufacturer-name constant `MANUFACTURER`
lives in `const.py`, which is not part of the sources; only its being a
fixed string matters here. -/
def MANUFACTURER : String := "4-noks"

/-- Modelled from the spec: the model-name constant `MODEL` from
`const.py`, a fixed string. -/
def MODEL : String := "Elios4You"

/-- The Reading Set as `Elios4YouAPI.__init__` builds it, in insertion
order: numeric fields default to `1`, string fields to `""`, and the
two static metadata fields to their constants. -/
def initData : Data :=
  [("produced_power", Val.i 1),
   ("consumed_power", Val.i 1),
   ("self_consumed_power", Val.i 1),
   ("bought_power", Val.i 1),
   ("sold_power", Val.i 1),
   ("daily_peak", Val.i 1),
   ("monthly_peak", Val.i 1),
   ("produced_energy", Val.i 1),
   ("produced_energy_f1", Val.i 1),
   ("produced_energy_f2", Val.i 1),
   ("produced_energy_f3", Val.i 1),
   ("consumed_energy", Val.i 1),
   ("consumed_energy_f1", Val.i 1),
   ("consumed_energy_f2", Val.i 1),
   ("consumed_energy_f3", Val.i 1),
   ("self_consumed_energy", Val.i 1),
   ("self_consumed_energy_f1", Val.i 1),
   ("self_consumed_energy_f2", Val.i 1),
   ("self_consumed_energy_f3", Val.i 1),
   ("bought_energy", Val.i 1),
   ("bought_energy_f1", Val.i 1),
   ("bought_energy_f2", Val.i 1),
   ("bought_energy_f3", Val.i 1),
   ("sold_energy", Val.i 1),
   ("sold_energy_f1", Val.i 1),
   ("sold_energy_f2", Val.i 1),
   ("sold_energy_f3", Val.i 1),
   ("alarm_1", Val.i 1),
   ("alarm_2", Val.i 1),
   ("power_alarm", Val.i 1),
   ("relay_state", Val.i 1),
   ("pwm_mode", Val.i 1),
   ("pr_ssv", Val.i 1),
   ("rel_ssv", Val.i 1),
   ("rel_mode", Val.i 1),
   ("rel_warning", Val.i 1),
   ("rcap", Val.i 1),
   ("utc_time", Val.s ""),
   ("fwtop", Val.s ""),
   ("fwbtm", Val.s ""),
   ("sn", Val.s ""),
   ("hwver", Val.s ""),
   ("btver", Val.s ""),
   ("hw_wifi", Val.s ""),
   ("s2w_app_version", Val.s ""),
   ("s2w_geps_version", Val.s ""),
   ("s2w_wlan_version", Val.s ""),
   ("manufact", Val.s MANUFACTURER),
   ("model", Val.s MODEL)]

/-! ## The protocol codec: `telnet_get_data`

One command round trip.  The transport behaviour (the vendored
`telnetlib` module is not part of the sources; `read_until` is modelled
from the spec: it accumulates bytes until the `"ready..."` marker and
fails with a timeout error if the marker never appears) is summarised by
an outcome parameter:
* `writeRaises` — the `write` call raises before `response = ""` is
  reached, so `telnet_get_data` returns `None`;
* `readFail` — `read_until` raises (timeout or connection drop) after
  `response = ""`, so the response stays `""` and decoding is skipped;
* `readOk raw` — `read_until` returned the text `raw`. -/

inductive RTOutcome where
  | writeRaises
  | readFail
  | readOk : String → RTOutcome

/-- The known command markers tested against the first response line. -/
def cmdMarkers : List String := ["@dat", "@sta", "@inf", "@rel", "@hwr"]

/-- The commands whose responses are `=`-separated. -/
def infCmds : List String := ["@inf", "@rel", "@hwr"]

/-- One line's key/value extraction.  `cmd_main ∈ {@inf, @rel, @hwr}`:
`key, value = line.split("=")` (exactly two parts or `ValueError`);
otherwise `key, value = line.split(";")[1:3]` (the slice must have
exactly two elements or `ValueError`).  `none` models the raised
`ValueError`. -/
def lineKV (cmd_main : String) (line : String) : Option (String × String) :=
  if cmd_main ∈ infCmds then
    match charSplit '=' line with
    | [k, v] => some (k, v)
    | _ => none
  else
    match ((charSplit ';' line).drop 1).take 2 with
    | [k, v] => some (k, v)
    | _ => none

/-- The decode loop of `telnet_get_data`.  A `ValueError` on a line is
caught by the surrounding `except`, which aborts the loop; the pairs
accumulated so far are still returned by the `finally` clause. -/
def parseLines (cmd_main : String) : List String → List (String × String) → List (String × String)
  | [], out => out
  | line :: rest, out =>
      match lineKV cmd_main line with
      | some (k, v) =>
          parseLines cmd_main rest (dictSet out (pySpaceToUnderscore (pyLower k)) (pyStrip v))
      | none => out

/-- Decoding of a non-empty response: split into lines, skip 1 header
line when the first line lower-cases to a known command marker else 2,
drop the last 2 lines, then run the key/value loop. -/
def decodeResponse (cmd_main : String) (raw : String) : List (String × String) :=
  let lines := pySplitlines raw
  let lines_start : Nat :=
    if pyLower (lines.headD "") ∈ cmdMarkers then 1 else 2
  let body := (lines.take (lines.length - 2)).drop lines_start
  parseLines cmd_main body []

/-- Model of `Elios4YouAPI.telnet_get_data(cmd)`: returns `None` exactly when an
exception fired before `response = ""` (a failed `write`); a failed or
empty read yields the empty dict; otherwise the decoded pairs. -/
def telnet_get_data (cmd : String) (io : RTOutcome) : Option (List (String × String)) :=
  let cmd_main := pyLower (pyTake 4 cmd)
  match io with
  | RTOutcome.writeRaises => none
  | RTOutcome.readFail => some []
  | RTOutcome.readOk raw =>
      if raw = "" then some [] else some (decodeResponse cmd_main raw)

/-! ## The device client: `async_get_data`

The try-block of `async_get_data` is modelled in `Except Data Data`:
`Except.error d` means a Python exception fired with the Reading Set
mutated up to `d`; the `except` handlers then make the call return
`False` with that data. -/

/-- The three per-command coercion families of `async_get_data`. -/
inductive Fam where
  | dat
  | sta
  | inf

/-- Coercion of one decoded pair before it is merged.
`none` = coercion raised (`ValueError`); `some none` = the pair is
dropped (the `utc_time` case); `some (some v)` = store `v`. -/
def mergeVal : Fam → String → String → Option (Option Val)
  | Fam.dat, k, v =>
      if pyContains "energy" k || pyContains "power" k then
        (pyFloat? v).map (fun q => some (Val.f (round2 q)))
      else if k = "utc_time" then some none
      else (pyInt? v).map (fun z => some (Val.i z))
  | Fam.sta, _, v => (pyFloat? v).map (fun q => some (Val.f (round2 q)))
  | Fam.inf, _, v => some (some (Val.s v))

/-- The merge loop `for key, value in parsed.items(): ...` for one
command family; a coercion failure raises out of the loop with the data
mutated so far. -/
def mergePairs (fam : Fam) (d : Data) : List (String × String) → Except Data Data
  | [] => Except.ok d
  | (k, v) :: rest =>
      match mergeVal fam k v with
      | none => Except.error d
      | some none => mergePairs fam d rest
      | some (some val) => mergePairs fam (dictSet d k val) rest

/-- One `if dat_parsed is not None: for key, value in parsed.items()`
block of `async_get_data`.  Note that the guard tests the `@dat` result
for every family; when the guard passes but this family's own parse is
`None`, iterating `.items()` on `None` raises. -/
def fetchGuardedMerge (fam : Fam) (dat : Option (List (String × String)))
    (parsed : Option (List (String × String))) (d : Data) : Except Data Data :=
  match dat with
  | none => Except.ok d
  | some _ =>
      match parsed with
      | none => Except.error d
      | some ps => mergePairs fam d ps

/-- Python `str(value)` as used by the f-string for `swver`.  The
`fwtop`/`fwbtm` fields hold strings in every state the client builds;
the numeric renderings are simple placeholders for states no execution
reaches. -/
def pyStr : Val → String
  | Val.s str => str
  | Val.i z => toString z
  | Val.f x => toString x.m ++ "e-" ++ toString x.e

/-- Model of `self.data["swver"] = f"{self.data["fwtop"]} / {self.data["fwbtm"]}"`;
a missing key would raise `KeyError`. -/
def swverCalc (d : Data) : Except Data Data :=
  match dictGet? d "fwtop", dictGet? d "fwbtm" with
  | some t, some b => Except.ok (dictSet d "swver" (Val.s (pyStr t ++ " / " ++ pyStr b)))
  | _, _ => Except.error d

/-- Model of `round(self.data[p] - self.data[s], 2)`: int − int stays int
(Python `round` returns it unchanged), otherwise exact float
subtraction rounded to 2 decimals; a string operand raises `TypeError`. -/
def pySubRound2 : Val → Val → Option Val
  | Val.i x, Val.i y => some (Val.i (x - y))
  | Val.i x, Val.f y => some (Val.f (round2 (decSub (decOfInt x) y)))
  | Val.f x, Val.i y => some (Val.f (round2 (decSub x (decOfInt y))))
  | Val.f x, Val.f y => some (Val.f (round2 (decSub x y)))
  | _, _ => none

/-- Model of `self.data[dst] = round(self.data[p] - self.data[s], 2)`; a missing
key raises `KeyError`, a non-numeric operand raises `TypeError`. -/
def selfCalc (d : Data) (dst p s : String) : Except Data Data :=
  match dictGet? d p, dictGet? d s with
  | some a, some b =>
      match pySubRound2 a b with
      | some v => Except.ok (dictSet d dst v)
      | none => Except.error d
  | _, _ => Except.error d

/-- The "Calculated sensors for self-consumption" block of
`async_get_data`, in source order. -/
def selfChain (d : Data) : Except Data Data := do
  let d1 ← selfCalc d "self_consumed_power" "produced_power" "sold_power"
  let d2 ← selfCalc d1 "self_consumed_energy" "produced_energy" "sold_energy"
  let d3 ← selfCalc d2 "self_consumed_energy_f1" "produced_energy_f1" "sold_energy_f1"
  let d4 ← selfCalc d3 "self_consumed_energy_f2" "produced_energy_f2" "sold_energy_f2"
  selfCalc d4 "self_consumed_energy_f3" "produced_energy_f3" "sold_energy_f3"

/-- The try-block of `async_get_data`: the three command round trips
with their guarded merges, then the derived `swver` and
self-consumption fields. -/
def fetchTry (env : String → RTOutcome) (d0 : Data) : Except Data Data := do
  let dat := telnet_get_data "@dat" (env "@dat")
  let d1 ← fetchGuardedMerge Fam.dat dat dat d0
  let sta := telnet_get_data "@sta" (env "@sta")
  let d2 ← fetchGuardedMerge Fam.sta dat sta d1
  let inf := telnet_get_data "@inf" (env "@inf")
  let d3 ← fetchGuardedMerge Fam.inf dat inf d2
  let d4 ← swverCalc d3
  selfChain d4

/-- The exception `async_get_data` raises when the probe fails. -/
inductive ApiError where
  | connectionError
  deriving DecidableEq

instance {ε α : Type} [DecidableEq ε] [DecidableEq α] : DecidableEq (Except ε α) := fun x y =>
  match x, y with
  | Except.ok a, Except.ok b =>
      if h : a = b then Decidable.isTrue (by rw [h])
      else Decidable.isFalse (fun hh => h (Except.ok.inj hh))
  | Except.error a, Except.error b =>
      if h : a = b then Decidable.isTrue (by rw [h])
      else Decidable.isFalse (fun hh => h (Except.error.inj hh))
  | Except.ok _, Except.error _ => Decidable.isFalse (fun hh => Except.noConfusion hh)
  | Except.error _, Except.ok _ => Decidable.isFalse (fun hh => Except.noConfusion hh)

/-- Model of `Elios4YouAPI.async_get_data`: if `check_port()` fails, raise
`ConnectionError`; otherwise run the try-block, any exception inside it
being caught and reported as the boolean result `False`.  The result
carries the (possibly mutated) Reading Set. -/
def async_get_data (probe : Bool) (env : String → RTOutcome) (d0 : Data) :
    Except ApiError (Bool × Data) :=
  if probe then
    match fetchTry env d0 with
    | Except.ok d => Except.ok (true, d)
    | Except.error d => Except.ok (false, d)
  else Except.error ApiError.connectionError

/-! ## The device client: `telnet_set_relay` -/

/-- Target mapping of `telnet_set_relay`: `state.lower() == "on" → 1`,
`"off" → 0`, anything else is invalid
and returns `False` before any I/O. -/
def relayTarget (state : String) : Option Int :=
  if pyLower state = "on" then some 1
  else if pyLower state = "off" then some 0
  else none

/-- The read-back check of `telnet_set_relay`: an empty or absent parse
is falsy; then `int(rel_output["rel"])` (`KeyError` or `ValueError`
are caught, giving `False`) is compared with the target. -/
def relayCheck (t : Int) (rel_parsed : Option (List (String × String))) : Bool :=
  match rel_parsed with
  | none => false
  | some [] => false
  | some (p :: rest) =>
      match dictGet? (p :: rest) "rel" with
      | none => false
      | some v =>
          match pyInt? v with
          | none => false
          | some m => decide (m = t)

/-- Model of `Elios4YouAPI.telnet_set_relay(state)`: every path returns a
boolean; no exception escapes (a failed probe also just returns
`False`).  It sends `@rel 0 <target>` and then `@rel`, and only the
second response is inspected. -/
def telnet_set_relay (probe : Bool) (state : String) (env : String → RTOutcome) :
    Except ApiError Bool :=
  if probe then
    match relayTarget state with
    | none => Except.ok false
    | some t =>
        let cmd1 := "@rel 0 " ++ toString t
        let _discarded := telnet_get_data cmd1 (env cmd1)
        let rel_parsed := telnet_get_data "@rel" (env "@rel")
        Except.ok (relayCheck t rel_parsed)
  else Except.ok false

/-! ## The decoder as the specification words it

Used to compare the implementation against the spec sentence by
sentence (claims C3/C5). -/

/-- Key/value extraction exactly as the claim words it: for the
`=`-family, "splitting once on `=`" (Python `split("=", 1)`); for the
`;`-family, the 2nd and 3rd semicolon-separated tokens. -/
def specLineKV (fam : String) (line : String) : Option (String × String) :=
  if fam ∈ infCmds then
    match charSplit '=' line with
    | [] => none
    | [_] => none
    | k :: r1 :: rest => some (k, String.intercalate "=" (r1 :: rest))
  else
    match (charSplit ';' line).get? 1, (charSplit ';' line).get? 2 with
    | some k, some v => some (k, v)
    | _, _ => none

/-- The decoder exactly as the spec describes it: skip 1 header line
when the first line case-insensitively equals a known marker else 2,
drop the last 2 lines, extract each remaining line's key/value (a line
that fails to split is skipped), normalise the key, trim the value. -/
def specDecode (fam : String) (raw : String) : List (String × String) :=
  let lines := pySplitlines raw
  let skip : Nat :=
    if cmdMarkers.any (fun mk => pyLower (lines.headD "") = mk) then 1 else 2
  let body := (lines.take (lines.length - 2)).drop skip
  body.foldl
    (fun out line =>
      match specLineKV fam line with
      | some (k, v) => dictSet out (pySpaceToUnderscore (pyLower k)) (pyStrip v)
      | none => out)
    []

/-- Amended key/value extraction: the `=`-family split must yield
exactly two parts (exactly one `=` in the line). -/
def specLineKVA (fam : String) (line : String) : Option (String × String) :=
  if fam ∈ infCmds then
    match charSplit '=' line with
    | [k, v] => some (k, v)
    | _ => none
  else
    match (charSplit ';' line).get? 1, (charSplit ';' line).get? 2 with
    | some k, some v => some (k, v)
    | _, _ => none

/-- One step of the amended spec decoder: once a line has failed to
split, the rest of the response is ignored. -/
def specStepA (fam : String) (st : List (String × String) × Bool) (line : String) :
    List (String × String) × Bool :=
  match st with
  | (out, false) => (out, false)
  | (out, true) =>
      match specLineKVA fam line with
      | some (k, v) => (dictSet out (pySpaceToUnderscore (pyLower k)) (pyStrip v), true)
      | none => (out, false)

/-- The amended spec decoder: as `specDecode`, except that the
`=`-family requires exactly one `=` per line and a line that fails to
split ends the decoding, keeping the pairs gathered so far. -/
def specDecodeA (fam : String) (raw : String) : List (String × String) :=
  let lines := pySplitlines raw
  let skip : Nat :=
    if cmdMarkers.any (fun mk => pyLower (lines.headD "") = mk) then 1 else 2
  let body := (lines.take (lines.length - 2)).drop skip
  (body.foldl (specStepA fam) ([], true)).1

/-! ## Auxiliary definitions for the statements -/

/-- The Reading Set carried by either outcome of the try-block. -/
def resultData : Except Data Data → Data
  | Except.ok d => d
  | Except.error d => d

/-- The six fields `async_get_data` derives itself after the merges. -/
def derivedKeys : List String :=
  ["swver", "self_consumed_power", "self_consumed_energy",
   "self_consumed_energy_f1", "self_consumed_energy_f2", "self_consumed_energy_f3"]

/-- The numeric fields initialised to `1` by `__init__`, in order. -/
def numericDefaultFields : List String :=
  ["produced_power", "consumed_power", "self_consumed_power", "bought_power",
   "sold_power", "daily_peak", "monthly_peak",
   "produced_energy", "produced_energy_f1", "produced_energy_f2", "produced_energy_f3",
   "consumed_energy", "consumed_energy_f1", "consumed_energy_f2", "consumed_energy_f3",
   "self_consumed_energy", "self_consumed_energy_f1", "self_consumed_energy_f2",
   "self_consumed_energy_f3",
   "bought_energy", "bought_energy_f1", "bought_energy_f2", "bought_energy_f3",
   "sold_energy", "sold_energy_f1", "sold_energy_f2", "sold_energy_f3",
   "alarm_1", "alarm_2", "power_alarm", "relay_state", "pwm_mode",
   "pr_ssv", "rel_ssv", "rel_mode", "rel_warning", "rcap"]

/-- The string fields initialised to `""` by `__init__`, in order. -/
def stringDefaultFields : List String :=
  ["utc_time", "fwtop", "fwbtm", "sn", "hwver", "btver", "hw_wifi",
   "s2w_app_version", "s2w_geps_version", "s2w_wlan_version"]

/-- The Reading Set after a fetch in which all three commands decode to
nothing: only the derived fields change from their defaults. -/
def initFetched : Data :=
  dictSet (dictSet (dictSet (dictSet (dictSet (dictSet initData
    "swver" (Val.s " / "))
    "self_consumed_power" (Val.i 0))
    "self_consumed_energy" (Val.i 0))
    "self_consumed_energy_f1" (Val.i 0))
    "self_consumed_energy_f2" (Val.i 0))
    "self_consumed_energy_f3" (Val.i 0)

/-- The self-consumption relation a field triple satisfies in a Reading
Set: the derived field holds `round(p - s, 2)` of the present values. -/
def SelfOk (d : Data) (dst p s : String) : Prop :=
  ∃ a b, dictGet? d p = some a ∧ dictGet? d s = some b ∧
    dictGet? d dst = pySubRound2 a b

/-! ## Dictionary lemmas -/

theorem find?_map_replace {α : Type} (k : String) (v : α) (l : List (String × α))
    (hl : l.any (fun p => p.1 = k) = true) :
    (l.map (fun p => if p.1 = k then (k, v) else p)).find? (fun p => p.1 = k) = some (k, v) := by
  induction l with
  | nil => simp at hl
  | cons p rest ih =>
      by_cases hp : p.1 = k
      · simp [hp, List.find?]
      · have hl' : rest.any (fun p => p.1 = k) = true := by
          simp [List.any_cons, hp] at hl
          simpa using hl
        simp [hp, List.find?, ih hl']

theorem find?_append_last {α : Type} (k : String) (v : α) (l : List (String × α))
    (hl : l.any (fun p => p.1 = k) = false) :
    (l ++ [(k, v)]).find? (fun p => p.1 = k) = some (k, v) := by
  induction l with
  | nil => simp [List.find?]
  | cons p rest ih =>
      by_cases hp : p.1 = k
      · rw [List.any_cons] at hl
        simp [hp] at hl
      · have hl' : rest.any (fun p => p.1 = k) = false := by
          cases hb : rest.any (fun p => p.1 = k)
          · rfl
          · rw [List.any_cons, hb] at hl; simp at hl
        simp [List.find?, hp, ih hl']

theorem dictGet?_dictSet_self {α : Type} (d : List (String × α)) (k : String) (v : α) :
    dictGet? (dictSet d k v) k = some v := by
  unfold dictSet dictGet?
  by_cases h : d.any (fun p => p.1 = k) = true
  · rw [if_pos h, find?_map_replace k v d h]
    rfl
  · have h' : d.any (fun p => p.1 = k) = false := by
      cases hb : d.any (fun p => p.1 = k)
      · rfl
      · exact absurd hb h
    rw [if_neg (by rw [h']; exact Bool.false_ne_true), find?_append_last k v d h']
    rfl

theorem find?_map_replace_ne {α : Type} (k k' : String) (v : α) (l : List (String × α))
    (hk : k' ≠ k) :
    (l.map (fun p => if p.1 = k then (k, v) else p)).find? (fun p => p.1 = k') =
      l.find? (fun p => p.1 = k') := by
  induction l with
  | nil => simp
  | cons p rest ih =>
      by_cases hp : p.1 = k
      · have hp' : ¬(p.1 = k') := by rw [hp]; exact Ne.symm hk
        simp [hp, List.find?, Ne.symm hk, hp', ih]
      · by_cases hq : p.1 = k'
        · simp [hp, List.find?, hq, hk, Ne.symm hk]
        · simp [hp, List.find?, hq, ih]

theorem dictGet?_dictSet_ne {α : Type} (d : List (String × α)) (k k' : String) (v : α)
    (hk : k' ≠ k) : dictGet? (dictSet d k v) k' = dictGet? d k' := by
  unfold dictSet dictGet?
  by_cases h : d.any (fun p => p.1 = k) = true
  · rw [if_pos h, find?_map_replace_ne k k' v d hk]
  · have h' : d.any (fun p => p.1 = k) = false := by
      cases hb : d.any (fun p => p.1 = k)
      · rfl
      · exact absurd hb h
    rw [if_neg (by rw [h']; exact Bool.false_ne_true), List.find?_append]
    simp [List.find?, Ne.symm hk]

/-! ## `Except` plumbing -/

theorem except_bind_ok {ε α β : Type} (x : Except ε α) (f : α → Except ε β) (b : β)
    (h : (x >>= f) = Except.ok b) : ∃ a, x = Except.ok a ∧ f a = Except.ok b := by
  cases x with
  | ok a => exact ⟨a, rfl, h⟩
  | error e => simp [Bind.bind, Except.bind] at h

theorem resultData_ok_bind (a : Data) (f : Data → Except Data Data) :
    resultData (Except.ok a >>= f) = resultData (f a) := rfl

theorem resultData_error_bind (e : Data) (f : Data → Except Data Data) :
    resultData (Except.error e >>= f) = e := rfl

theorem resultData_error (e : Data) : resultData (Except.error e) = e := rfl

/-! ## Step characterisations -/

theorem selfCalc_ok {d d' : Data} {dst p s : String}
    (h : selfCalc d dst p s = Except.ok d') :
    ∃ a b v, dictGet? d p = some a ∧ dictGet? d s = some b ∧
      pySubRound2 a b = some v ∧ d' = dictSet d dst v := by
  unfold selfCalc at h
  cases hp : dictGet? d p with
  | none => rw [hp] at h; simp at h
  | some a =>
      rw [hp] at h
      cases hs : dictGet? d s with
      | none => rw [hs] at h; simp at h
      | some b =>
          rw [hs] at h
          simp only [] at h
          cases hv : pySubRound2 a b with
          | none => rw [hv] at h; simp at h
          | some v =>
              rw [hv] at h
              simp at h
              exact ⟨a, b, v, rfl, rfl, hv, h.symm⟩

theorem selfCalc_error {d e : Data} {dst p s : String}
    (h : selfCalc d dst p s = Except.error e) : e = d := by
  unfold selfCalc at h
  cases hp : dictGet? d p with
  | none =>
      rw [hp] at h
      simp at h
      exact h.symm
  | some a =>
      rw [hp] at h
      cases hs : dictGet? d s with
      | none => rw [hs] at h; simp at h; exact h.symm
      | some b =>
          rw [hs] at h
          simp only [] at h
          cases hv : pySubRound2 a b with
          | none => rw [hv] at h; simp at h; exact h.symm
          | some v => rw [hv] at h; simp at h

theorem swverCalc_ok {d d' : Data} (h : swverCalc d = Except.ok d') :
    ∃ v, d' = dictSet d "swver" v := by
  unfold swverCalc at h
  cases ht : dictGet? d "fwtop" with
  | none => rw [ht] at h; simp at h
  | some t =>
      rw [ht] at h
      cases hb : dictGet? d "fwbtm" with
      | none => rw [hb] at h; simp at h
      | some b =>
          rw [hb] at h
          simp at h
          exact ⟨Val.s (pyStr t ++ " / " ++ pyStr b), h.symm⟩

theorem swverCalc_error {d e : Data} (h : swverCalc d = Except.error e) : e = d := by
  unfold swverCalc at h
  cases ht : dictGet? d "fwtop" with
  | none => rw [ht] at h; simp at h; exact h.symm
  | some t =>
      rw [ht] at h
      cases hb : dictGet? d "fwbtm" with
      | none => rw [hb] at h; simp at h; exact h.symm
      | some b => rw [hb] at h; simp at h

theorem selfChain_ok {d0 d : Data} (h : selfChain d0 = Except.ok d) :
    SelfOk d "self_consumed_power" "produced_power" "sold_power" ∧
    SelfOk d "self_consumed_energy" "produced_energy" "sold_energy" ∧
    SelfOk d "self_consumed_energy_f1" "produced_energy_f1" "sold_energy_f1" ∧
    SelfOk d "self_consumed_energy_f2" "produced_energy_f2" "sold_energy_f2" ∧
    SelfOk d "self_consumed_energy_f3" "produced_energy_f3" "sold_energy_f3" := by
  unfold selfChain at h
  obtain ⟨d1, h1, h⟩ := except_bind_ok _ _ _ h
  obtain ⟨d2, h2, h⟩ := except_bind_ok _ _ _ h
  obtain ⟨d3, h3, h⟩ := except_bind_ok _ _ _ h
  obtain ⟨d4, h4, h5⟩ := except_bind_ok _ _ _ h
  obtain ⟨a1, b1, v1, ha1, hb1, hv1, e1⟩ := selfCalc_ok h1
  obtain ⟨a2, b2, v2, ha2, hb2, hv2, e2⟩ := selfCalc_ok h2
  obtain ⟨a3, b3, v3, ha3, hb3, hv3, e3⟩ := selfCalc_ok h3
  obtain ⟨a4, b4, v4, ha4, hb4, hv4, e4⟩ := selfCalc_ok h4
  obtain ⟨a5, b5, v5, ha5, hb5, hv5, e5⟩ := selfCalc_ok h5
  subst e5 e4 e3 e2 e1
  refine ⟨⟨a1, b1, ?_, ?_, ?_⟩, ⟨a2, b2, ?_, ?_, ?_⟩, ⟨a3, b3, ?_, ?_, ?_⟩,
      ⟨a4, b4, ?_, ?_, ?_⟩, ⟨a5, b5, ?_, ?_, ?_⟩⟩
  · rw [dictGet?_dictSet_ne _ _ _ _ (by decide), dictGet?_dictSet_ne _ _ _ _ (by decide),
      dictGet?_dictSet_ne _ _ _ _ (by decide), dictGet?_dictSet_ne _ _ _ _ (by decide),
      dictGet?_dictSet_ne _ _ _ _ (by decide)]
    exact ha1
  · rw [dictGet?_dictSet_ne _ _ _ _ (by decide), dictGet?_dictSet_ne _ _ _ _ (by decide),
      dictGet?_dictSet_ne _ _ _ _ (by decide), dictGet?_dictSet_ne _ _ _ _ (by decide),
      dictGet?_dictSet_ne _ _ _ _ (by decide)]
    exact hb1
  · rw [dictGet?_dictSet_ne _ _ _ _ (by decide), dictGet?_dictSet_ne _ _ _ _ (by decide),
      dictGet?_dictSet_ne _ _ _ _ (by decide), dictGet?_dictSet_ne _ _ _ _ (by decide),
      dictGet?_dictSet_self]
    exact hv1.symm
  · rw [dictGet?_dictSet_ne _ _ _ _ (by decide), dictGet?_dictSet_ne _ _ _ _ (by decide),
      dictGet?_dictSet_ne _ _ _ _ (by decide), dictGet?_dictSet_ne _ _ _ _ (by decide)]
    exact ha2
  · rw [dictGet?_dictSet_ne _ _ _ _ (by decide), dictGet?_dictSet_ne _ _ _ _ (by decide),
      dictGet?_dictSet_ne _ _ _ _ (by decide), dictGet?_dictSet_ne _ _ _ _ (by decide)]
    exact hb2
  · rw [dictGet?_dictSet_ne _ _ _ _ (by decide), dictGet?_dictSet_ne _ _ _ _ (by decide),
      dictGet?_dictSet_ne _ _ _ _ (by decide), dictGet?_dictSet_self]
    exact hv2.symm
  · rw [dictGet?_dictSet_ne _ _ _ _ (by decide), dictGet?_dictSet_ne _ _ _ _ (by decide),
      dictGet?_dictSet_ne _ _ _ _ (by decide)]
    exact ha3
  · rw [dictGet?_dictSet_ne _ _ _ _ (by decide), dictGet?_dictSet_ne _ _ _ _ (by decide),
      dictGet?_dictSet_ne _ _ _ _ (by decide)]
    exact hb3
  · rw [dictGet?_dictSet_ne _ _ _ _ (by decide), dictGet?_dictSet_ne _ _ _ _ (by decide),
      dictGet?_dictSet_self]
    exact hv3.symm
  · rw [dictGet?_dictSet_ne _ _ _ _ (by decide), dictGet?_dictSet_ne _ _ _ _ (by decide)]
    exact ha4
  · rw [dictGet?_dictSet_ne _ _ _ _ (by decide), dictGet?_dictSet_ne _ _ _ _ (by decide)]
    exact hb4
  · rw [dictGet?_dictSet_ne _ _ _ _ (by decide), dictGet?_dictSet_self]
    exact hv4.symm
  · rw [dictGet?_dictSet_ne _ _ _ _ (by decide)]
    exact ha5
  · rw [dictGet?_dictSet_ne _ _ _ _ (by decide)]
    exact hb5
  · rw [dictGet?_dictSet_self]
    exact hv5.symm

theorem selfCalc_preserve (d : Data) (dst p s k : String) (hk : k ≠ dst) :
    dictGet? (resultData (selfCalc d dst p s)) k = dictGet? d k := by
  cases hc : selfCalc d dst p s with
  | ok d' =>
      obtain ⟨a, b, v, _, _, _, e⟩ := selfCalc_ok hc
      subst e
      exact dictGet?_dictSet_ne _ _ _ _ hk
  | error e =>
      rw [selfCalc_error hc]
      exact rfl

theorem selfChain_preserve (d : Data) (k : String)
    (h1 : k ≠ "self_consumed_power") (h2 : k ≠ "self_consumed_energy")
    (h3 : k ≠ "self_consumed_energy_f1") (h4 : k ≠ "self_consumed_energy_f2")
    (h5 : k ≠ "self_consumed_energy_f3") :
    dictGet? (resultData (selfChain d)) k = dictGet? d k := by
  unfold selfChain
  cases hc1 : selfCalc d "self_consumed_power" "produced_power" "sold_power" with
  | error e =>
      rw [resultData_error_bind, selfCalc_error hc1]
  | ok d1 =>
      obtain ⟨a, b, v, _, _, _, e1⟩ := selfCalc_ok hc1
      have s1 : dictGet? d1 k = dictGet? d k := by
        subst e1; exact dictGet?_dictSet_ne _ _ _ _ h1
      rw [resultData_ok_bind]
      cases hc2 : selfCalc d1 "self_consumed_energy" "produced_energy" "sold_energy" with
      | error e => rw [resultData_error_bind, selfCalc_error hc2]; exact s1
      | ok d2 =>
          obtain ⟨a, b, v, _, _, _, e2⟩ := selfCalc_ok hc2
          have s2 : dictGet? d2 k = dictGet? d k := by
            subst e2; rw [dictGet?_dictSet_ne _ _ _ _ h2]; exact s1
          rw [resultData_ok_bind]
          cases hc3 : selfCalc d2 "self_consumed_energy_f1" "produced_energy_f1" "sold_energy_f1" with
          | error e => rw [resultData_error_bind, selfCalc_error hc3]; exact s2
          | ok d3 =>
              obtain ⟨a, b, v, _, _, _, e3⟩ := selfCalc_ok hc3
              have s3 : dictGet? d3 k = dictGet? d k := by
                subst e3; rw [dictGet?_dictSet_ne _ _ _ _ h3]; exact s2
              rw [resultData_ok_bind]
              cases hc4 : selfCalc d3 "self_consumed_energy_f2" "produced_energy_f2" "sold_energy_f2" with
              | error e => rw [resultData_error_bind, selfCalc_error hc4]; exact s3
              | ok d4 =>
                  obtain ⟨a, b, v, _, _, _, e4⟩ := selfCalc_ok hc4
                  have s4 : dictGet? d4 k = dictGet? d k := by
                    subst e4; rw [dictGet?_dictSet_ne _ _ _ _ h4]; exact s3
                  rw [resultData_ok_bind, selfCalc_preserve d4 _ _ _ k h5]
                  exact s4

theorem async_true_ok {env : String → RTOutcome} {d0 d : Data}
    (h : async_get_data true env d0 = Except.ok (true, d)) :
    fetchTry env d0 = Except.ok d := by
  unfold async_get_data at h
  rw [if_pos rfl] at h
  cases hf : fetchTry env d0 with
  | ok dd => rw [hf] at h; simp at h; rw [h]
  | error dd => rw [hf] at h; simp at h

theorem async_true_data {env : String → RTOutcome} {d0 d : Data} {b : Bool}
    (h : async_get_data true env d0 = Except.ok (b, d)) :
    d = resultData (fetchTry env d0) := by
  unfold async_get_data at h
  rw [if_pos rfl] at h
  cases hf : fetchTry env d0 with
  | ok dd => rw [hf] at h; simp at h; rw [h.2, resultData]
  | error dd => rw [hf] at h; simp at h; rw [h.2, resultData]

theorem fetchTry_ok_selfChain {env : String → RTOutcome} {d0 d : Data}
    (h : fetchTry env d0 = Except.ok d) :
    ∃ d4, selfChain d4 = Except.ok d := by
  unfold fetchTry at h
  obtain ⟨d1, _, h⟩ := except_bind_ok _ _ _ h
  obtain ⟨d2, _, h⟩ := except_bind_ok _ _ _ h
  obtain ⟨d3, _, h⟩ := except_bind_ok _ _ _ h
  obtain ⟨d4, _, h⟩ := except_bind_ok _ _ _ h
  exact ⟨d4, h⟩

theorem fetchTry_dat_none_preserve {env : String → RTOutcome} {d0 : Data} (k : String)
    (hdat : telnet_get_data "@dat" (env "@dat") = none)
    (h1 : k ≠ "swver")
    (h2 : k ≠ "self_consumed_power") (h3 : k ≠ "self_consumed_energy")
    (h4 : k ≠ "self_consumed_energy_f1") (h5 : k ≠ "self_consumed_energy_f2")
    (h6 : k ≠ "self_consumed_energy_f3") :
    dictGet? (resultData (fetchTry env d0)) k = dictGet? d0 k := by
  unfold fetchTry
  rw [hdat]
  simp only [fetchGuardedMerge, Bind.bind, Except.bind]
  cases hw : swverCalc d0 with
  | error e =>
      rw [resultData_error, swverCalc_error hw]
  | ok d4 =>
      obtain ⟨v, e⟩ := swverCalc_ok hw
      have s : dictGet? d4 k = dictGet? d0 k := by
        subst e; exact dictGet?_dictSet_ne _ _ _ _ h1
      rw [selfChain_preserve d4 k h2 h3 h4 h5 h6]
      exact s

/-! ## Decoder lemmas -/

theorem lineKV_eq_specA (fam line : String) : lineKV fam line = specLineKVA fam line := by
  unfold lineKV specLineKVA
  by_cases hf : fam ∈ infCmds
  · rw [if_pos hf, if_pos hf]
  · rw [if_neg hf, if_neg hf]
    rcases charSplit ';' line with _ | ⟨x, _ | ⟨y, _ | ⟨z, rest⟩⟩⟩ <;> rfl

theorem foldA_stopped (fam : String) (ls : List String) (out : List (String × String)) :
    (ls.foldl (specStepA fam) (out, false)).1 = out := by
  induction ls with
  | nil => rfl
  | cons line rest ih => rw [List.foldl_cons]; exact ih

theorem parseLines_eq_foldA (fam : String) (ls : List String) (out : List (String × String)) :
    parseLines fam ls out = (ls.foldl (specStepA fam) (out, true)).1 := by
  induction ls generalizing out with
  | nil => rfl
  | cons line rest ih =>
      rw [List.foldl_cons]
      unfold parseLines
      rw [lineKV_eq_specA]
      cases hkv : specLineKVA fam line with
      | none =>
          have hstep : specStepA fam (out, true) line = (out, false) := by
            unfold specStepA; rw [hkv]
          rw [hstep]
          exact (foldA_stopped fam rest out).symm
      | some kv =>
          cases kv with
          | mk kk vv =>
              have hstep : specStepA fam (out, true) line =
                  (dictSet out (pySpaceToUnderscore (pyLower kk)) (pyStrip vv), true) := by
                unfold specStepA; rw [hkv]
              rw [hstep]
              exact ih _

theorem marker_any_iff (hd : String) :
    cmdMarkers.any (fun mk => pyLower hd = mk) = true ↔ pyLower hd ∈ cmdMarkers := by
  rw [List.any_eq_true]
  constructor
  · rintro ⟨x, hx, he⟩
    have hxe : pyLower hd = x := of_decide_eq_true he
    rw [hxe]; exact hx
  · intro h
    exact ⟨pyLower hd, h, by simp⟩

theorem decodeResponse_eq_specA (fam raw : String) :
    decodeResponse fam raw = specDecodeA fam raw := by
  have hskip : (if pyLower ((pySplitlines raw).headD "") ∈ cmdMarkers then (1 : Nat) else 2) =
      (if cmdMarkers.any (fun mk => pyLower ((pySplitlines raw).headD "") = mk) then 1 else 2) := by
    by_cases h : pyLower ((pySplitlines raw).headD "") ∈ cmdMarkers
    · rw [if_pos h, if_pos ((marker_any_iff _).mpr h)]
    · rw [if_neg h, if_neg (fun hc => h ((marker_any_iff _).mp hc))]
  simp only [decodeResponse, specDecodeA]
  rw [← hskip]
  exact parseLines_eq_foldA _ _ _

/-- The `@dat` merge loop never writes the key `utc_time`, whether it
completes or raises part-way. -/
theorem mergeDat_utc (ps : List (String × String)) (d : Data) :
    dictGet? (resultData (mergePairs Fam.dat d ps)) "utc_time" = dictGet? d "utc_time" := by
  induction ps generalizing d with
  | nil => rfl
  | cons p rest ih =>
      cases p with
      | mk k v =>
          unfold mergePairs
          cases hm : mergeVal Fam.dat k v with
          | none => rfl
          | some o =>
              cases o with
              | none => exact ih d
              | some val =>
                  have hk : k ≠ "utc_time" := by
                    intro hke
                    subst hke
                    simp only [mergeVal] at hm
                    rw [show (pyContains "energy" "utc_time" || pyContains "power" "utc_time") = false
                      from by decide] at hm
                    simp at hm
                  rw [ih (dictSet d k val), dictGet?_dictSet_ne _ _ _ _ (Ne.symm hk)]

/-! ## Claim C1 -/

/-- Claim C1 counterexample: the claim says device-unreachability (a
failed probe) propagates to the caller of `set_relay` as an exception,
but `telnet_set_relay` with a failed probe returns the plain boolean
`False` and raises nothing. -/
theorem claim1_counterexample :
    telnet_set_relay false "on" (fun _ => RTOutcome.writeRaises) = Except.ok false := by
  decide

/-- Claim C1 as amended: for `async_get_data` the only propagating
error is device-unreachability — a failed probe raises
`ConnectionError` and with a successful probe every failure is absorbed
into the boolean result — while `telnet_set_relay` never raises at all:
every failure, a failed probe included, is reported as a boolean. -/
theorem claim1_amended :
    (∀ (env : String → RTOutcome) (d0 : Data),
        async_get_data false env d0 = Except.error ApiError.connectionError) ∧
    (∀ (env : String → RTOutcome) (d0 : Data),
        ∃ b d, async_get_data true env d0 = Except.ok (b, d)) ∧
    (∀ (probe : Bool) (st : String) (env : String → RTOutcome),
        ∃ b, telnet_set_relay probe st env = Except.ok b) := by
  refine ⟨fun env d0 => rfl, fun env d0 => ?_, fun probe st env => ?_⟩
  · cases hf : fetchTry env d0 with
    | ok dd =>
        exact ⟨true, dd, by unfold async_get_data; rw [if_pos rfl, hf]⟩
    | error dd =>
        exact ⟨false, dd, by unfold async_get_data; rw [if_pos rfl, hf]⟩
  · cases probe with
    | false => exact ⟨false, rfl⟩
    | true =>
        cases ht : relayTarget st with
        | none => exact ⟨false, by unfold telnet_set_relay; rw [if_pos rfl, ht]⟩
        | some t =>
            exact ⟨relayCheck t (telnet_get_data "@rel" (env "@rel")), by
              unfold telnet_set_relay; rw [if_pos rfl, ht]⟩

/-! ## Claim C2 -/

/-- Claim C2: after every successful fetch, each of the five
self-consumption fields equals `round(produced − sold, 2)` computed
from the produced/sold values present in the merged Reading Set — the
derived fields are recomputed, never taken from the device response. -/
theorem claim2_self_consumption (env : String → RTOutcome) (d0 d : Data)
    (h : async_get_data true env d0 = Except.ok (true, d)) :
    SelfOk d "self_consumed_power" "produced_power" "sold_power" ∧
    SelfOk d "self_consumed_energy" "produced_energy" "sold_energy" ∧
    SelfOk d "self_consumed_energy_f1" "produced_energy_f1" "sold_energy_f1" ∧
    SelfOk d "self_consumed_energy_f2" "produced_energy_f2" "sold_energy_f2" ∧
    SelfOk d "self_consumed_energy_f3" "produced_energy_f3" "sold_energy_f3" := by
  obtain ⟨d4, hchain⟩ := fetchTry_ok_selfChain (async_true_ok h)
  exact selfChain_ok hchain

/-- Claim C2 witness: a concrete successful fetch satisfying the
self-consumption invariant. -/
theorem claim2_self_consumption_witness :
    (async_get_data true (fun _ => RTOutcome.readFail) initData = Except.ok (true, initFetched)) ∧
    (SelfOk initFetched "self_consumed_power" "produced_power" "sold_power" ∧
     SelfOk initFetched "self_consumed_energy" "produced_energy" "sold_energy" ∧
     SelfOk initFetched "self_consumed_energy_f1" "produced_energy_f1" "sold_energy_f1" ∧
     SelfOk initFetched "self_consumed_energy_f2" "produced_energy_f2" "sold_energy_f2" ∧
     SelfOk initFetched "self_consumed_energy_f3" "produced_energy_f3" "sold_energy_f3") :=
  ⟨by decide,
   claim2_self_consumption (fun _ => RTOutcome.readFail) initData initFetched (by decide)⟩

/-! ## Claim C3 -/

/-- Claim C3 counterexample: the decoder does not split `=`-family
lines once on `=`.  On the line `k=a=b` Python's `split("=")` yields
three parts, the two-name unpacking raises, and the decoder returns the
empty dict, where the claim's algorithm yields the pair `(k, a=b)`. -/
theorem claim3_counterexample :
    telnet_get_data "@inf" (RTOutcome.readOk "@inf\nk=a=b\nt1\nt2") = some [] ∧
    specDecode "@inf" "@inf\nk=a=b\nt1\nt2" = [("k", "a=b")] ∧
    ([] : List (String × String)) ≠ [("k", "a=b")] := by
  refine ⟨by decide, by decide, by decide⟩

/-- Claim C3 as amended: the decoder works as the claim describes —
header skipping by case-insensitive marker match, dropping the last two
lines, `;`-family lines taking the 2nd and 3rd tokens, key lowercased
with spaces replaced by underscores, value stripped — except that an
`=`-family line must split into exactly two parts (exactly one `=`),
and a line that fails its split ends decoding, keeping the pairs
gathered so far. -/
theorem claim3_amended (cmd raw : String) (hraw : raw ≠ "") :
    telnet_get_data cmd (RTOutcome.readOk raw) =
      some (specDecodeA (pyLower (pyTake 4 cmd)) raw) := by
  simp only [telnet_get_data]
  rw [if_neg hraw, decodeResponse_eq_specA]

/-- Claim C3 witness: the amended decoder equation at a concrete
response. -/
theorem claim3_amended_witness :
    ("@dat\n1;K w;3 \nx\ny" ≠ "") ∧
    telnet_get_data "@dat" (RTOutcome.readOk "@dat\n1;K w;3 \nx\ny") =
      some (specDecodeA (pyLower (pyTake 4 "@dat")) "@dat\n1;K w;3 \nx\ny") :=
  ⟨by decide, claim3_amended "@dat" "@dat\n1;K w;3 \nx\ny" (by decide)⟩

/-! ## Claim C4 -/

/-- Claim C4 counterexample: `utc_time` does appear in the merged
Reading Set — it is placed there by the constructor with value `""` and
survives a successful fetch (here one whose `@dat` response even
carries a `utc_time` field, which is discarded). -/
theorem claim4_counterexample :
    Except.map (fun r => (r.1, dictGet? r.2 "utc_time"))
      (async_get_data true
        (fun c => if c = "@dat" then RTOutcome.readOk "@dat\n1;Utc Time;999\nx\ny"
          else RTOutcome.readFail)
        initData) = Except.ok (true, some (Val.s "")) := by
  decide

/-- Claim C4 as amended: the `@dat` merge stores power/energy fields as
`round(float(value), 2)` and all other fields as integers, never writes
the key `utc_time` (which therefore keeps its constructed default
`""`), and the `@sta` merge stores every field as
`round(float(value), 2)`. -/
theorem claim4_amended :
    (∀ (d : Data) (k v : String) (q : Dec),
        (pyContains "energy" k || pyContains "power" k) = true →
        pyFloat? v = some q →
        mergePairs Fam.dat d [(k, v)] = Except.ok (dictSet d k (Val.f (round2 q)))) ∧
    (∀ (d : Data) (ps : List (String × String)),
        dictGet? (resultData (mergePairs Fam.dat d ps)) "utc_time" = dictGet? d "utc_time") ∧
    (∀ (d : Data) (k v : String) (z : Int),
        (pyContains "energy" k || pyContains "power" k) = false →
        k ≠ "utc_time" →
        pyInt? v = some z →
        mergePairs Fam.dat d [(k, v)] = Except.ok (dictSet d k (Val.i z))) ∧
    (∀ (d : Data) (k v : String) (q : Dec),
        pyFloat? v = some q →
        mergePairs Fam.sta d [(k, v)] = Except.ok (dictSet d k (Val.f (round2 q)))) := by
  refine ⟨?_, fun d ps => mergeDat_utc ps d, ?_, ?_⟩
  · intro d k v q hc hq
    have hm : mergeVal Fam.dat k v = some (some (Val.f (round2 q))) := by
      simp only [mergeVal]
      rw [hc]
      simp [hq]
    unfold mergePairs
    rw [hm]
    rfl
  · intro d k v z hc hk hq
    have hm : mergeVal Fam.dat k v = some (some (Val.i z)) := by
      simp only [mergeVal]
      rw [hc]
      simp [hk, hq]
    unfold mergePairs
    rw [hm]
    rfl
  · intro d k v q hq
    have hm : mergeVal Fam.sta k v = some (some (Val.f (round2 q))) := by
      simp only [mergeVal]
      simp [hq]
    unfold mergePairs
    rw [hm]
    rfl

/-- Claim C4 witness: the amended merge rules at concrete pairs. -/
theorem claim4_amended_witness :
    mergePairs Fam.dat [] [("produced_power", "2.5")] =
      Except.ok (dictSet [] "produced_power" (Val.f (round2 (Dec.mk 25 1)))) ∧
    dictGet? (resultData (mergePairs Fam.dat initData [("utc_time", "9")])) "utc_time" =
      dictGet? initData "utc_time" ∧
    mergePairs Fam.dat [] [("alarm_1", "3")] = Except.ok (dictSet [] "alarm_1" (Val.i 3)) ∧
    mergePairs Fam.sta [] [("rcap", "1.0")] =
      Except.ok (dictSet [] "rcap" (Val.f (round2 (Dec.mk 1 0)))) :=
  ⟨claim4_amended.1 [] "produced_power" "2.5" (Dec.mk 25 1) (by decide) (by decide),
   claim4_amended.2.1 initData [("utc_time", "9")],
   claim4_amended.2.2.1 [] "alarm_1" "3" 3 (by decide) (by decide) (by decide),
   claim4_amended.2.2.2 [] "rcap" "1.0" (Dec.mk 1 0) (by decide)⟩

/-! ## Claim C5 -/

/-- Claim C5 counterexample: a malformed line is not merely skipped —
it ends decoding, so a valid pair after it is lost.  Here `zz` has no
`;`, the slice-unpacking raises, and the later valid line `1;K;v` never
produces its pair. -/
theorem claim5_counterexample :
    telnet_get_data "@dat" (RTOutcome.readOk "@dat\nzz\n1;K;v\nt1\nt2") = some [] ∧
    ("k", "v") ∉ (telnet_get_data "@dat" (RTOutcome.readOk "@dat\nzz\n1;K;v\nt1\nt2")).getD [] := by
  refine ⟨by decide, by decide⟩

/-- Claim C5 as amended: a line that fails to split ends the decode
loop; the pairs of the well-formed lines before it are all still
returned (so a malformed line is not fatal to the pairs already
decoded, but the lines after it are dropped). -/
theorem claim5_amended (fam : String) (good : List String) (bad : String)
    (rest : List String) (out : List (String × String))
    (hgood : ∀ l, l ∈ good → (lineKV fam l).isSome = true)
    (hbad : lineKV fam bad = none) :
    parseLines fam (good ++ bad :: rest) out = parseLines fam good out := by
  induction good generalizing out with
  | nil =>
      rw [List.nil_append]
      unfold parseLines
      rw [hbad]
  | cons g gs ih =>
      have hg : (lineKV fam g).isSome = true := hgood g (List.mem_cons_self g gs)
      cases hkv : lineKV fam g with
      | none => rw [hkv] at hg; simp at hg
      | some kv =>
          cases kv with
          | mk kk vv =>
              rw [List.cons_append]
              unfold parseLines
              rw [hkv]
              exact ih _ (fun l hl => hgood l (List.mem_cons_of_mem g hl))

/-- Claim C5 witness: the amended abort behaviour at a concrete body. -/
theorem claim5_amended_witness :
    (∀ l, l ∈ ["1;A;2"] → (lineKV "@dat" l).isSome = true) ∧
    lineKV "@dat" "zz" = none ∧
    parseLines "@dat" (["1;A;2"] ++ "zz" :: ["1;B;3"]) [] = parseLines "@dat" ["1;A;2"] [] :=
  ⟨by decide, by decide,
   claim5_amended "@dat" ["1;A;2"] "zz" ["1;B;3"] [] (by decide) (by decide)⟩

/-! ## Claim C6 -/

/-- Claim C6: contrary to the claim (and to the function's own
`response is None` guard and error log), a round trip in which nothing
arrives before the terminator is not treated as failed: the response
`"ready..."` decodes to the empty dict, `telnet_get_data` returns it
(not `None`), and the fetch still reports success. -/
theorem claim6_code_bug :
    telnet_get_data "@dat" (RTOutcome.readOk "ready...") = some [] ∧
    Except.map Prod.fst (async_get_data true (fun _ => RTOutcome.readOk "ready...") initData) =
      Except.ok true := by
  refine ⟨by decide, by decide⟩

/-! ## Claim C7 -/

/-- Claim C7 counterexample: the derived combined software version
(`swver`) is not present after construction — it first appears on the
first successful fetch. -/
theorem claim7_counterexample : dictGet? initData "swver" = none := by decide

/-- Claim C7 as amended: after construction every field except the
derived `swver` is present — the numeric fields default to 1, the
device string fields to `""`, and the static metadata fields to their
constants — and these are exactly the keys of the Reading Set. -/
theorem claim7_amended :
    (∀ k, k ∈ numericDefaultFields → dictGet? initData k = some (Val.i 1)) ∧
    (∀ k, k ∈ stringDefaultFields → dictGet? initData k = some (Val.s "")) ∧
    dictGet? initData "manufact" = some (Val.s MANUFACTURER) ∧
    dictGet? initData "model" = some (Val.s MODEL) ∧
    dictGet? initData "swver" = none ∧
    initData.map Prod.fst = numericDefaultFields ++ stringDefaultFields ++ ["manufact", "model"] := by
  refine ⟨by decide, by decide, by decide, by decide, by decide, by decide⟩

/-- Claim C7 witness: the default-value clauses at concrete fields. -/
theorem claim7_amended_witness :
    ("produced_power" ∈ numericDefaultFields ∧
      dictGet? initData "produced_power" = some (Val.i 1)) ∧
    ("fwtop" ∈ stringDefaultFields ∧ dictGet? initData "fwtop" = some (Val.s "")) :=
  ⟨⟨by decide, claim7_amended.1 "produced_power" (by decide)⟩,
   ⟨by decide, claim7_amended.2.1 "fwtop" (by decide)⟩⟩

/-! ## Claim C8 -/

/-- Claim C8 counterexample: a fetch that fails after the probe
succeeded (here the `@sta` round trip returns `None` after `@dat`
merged) does not retain the pre-call Reading Set: `produced_power` was
already overwritten from 1 to 5.5 when the failure hit. -/
theorem claim8_counterexample :
    Except.map (fun r => (r.1, dictGet? r.2 "produced_power"))
      (async_get_data true
        (fun c => if c = "@dat" then RTOutcome.readOk "@dat\n1;Produced Power;5.5\nx\ny"
          else RTOutcome.writeRaises)
        initData) = Except.ok (false, some (Val.f (Dec.mk 55 1))) ∧
    dictGet? initData "produced_power" = some (Val.i 1) := by
  refine ⟨by decide, by decide⟩

/-- Claim C8 as amended: a failed fetch can leave a partial overwrite:
when the `@dat` round trip decodes and merges and the `@sta` round trip
then yields `None`, the fetch returns `False` with the Reading Set
equal to the pre-call contents updated by exactly the `@dat` merge. -/
theorem claim8_amended (env : String → RTOutcome) (d0 d1 : Data)
    (ps : List (String × String))
    (hdat : telnet_get_data "@dat" (env "@dat") = some ps)
    (hmerge : mergePairs Fam.dat d0 ps = Except.ok d1)
    (hsta : telnet_get_data "@sta" (env "@sta") = none) :
    async_get_data true env d0 = Except.ok (false, d1) := by
  have hft : fetchTry env d0 = Except.error d1 := by
    unfold fetchTry
    rw [hdat, hsta]
    simp only [fetchGuardedMerge, Bind.bind, Except.bind]
    rw [hmerge]
  unfold async_get_data
  rw [if_pos rfl, hft]

/-- Claim C8 witness: the amended partial-overwrite shape at a concrete
environment. -/
theorem claim8_amended_witness :
    async_get_data true
      (fun c => if c = "@dat" then RTOutcome.readOk "@dat\n1;Produced Power;5.5\nx\ny"
        else RTOutcome.writeRaises)
      initData =
      Except.ok (false, dictSet initData "produced_power" (Val.f (Dec.mk 55 1))) :=
  claim8_amended _ initData _ [("produced_power", "5.5")] (by decide) (by decide) (by decide)

/-! ## Claim C9 -/

/-- Claim C9: with a successful probe and a valid state, the relay
operation sends `@rel 0 <target>` then `@rel` (the definition of
`telnet_set_relay` issues exactly those two commands), and when the
read-back decodes to pairs containing an integer `rel` field, it
returns `true` exactly when that integer equals the target. -/
theorem claim9_relay (st : String) (t : Int) (env : String → RTOutcome)
    (ps : List (String × String)) (v : String) (m : Int)
    (ht : relayTarget st = some t)
    (hrel : telnet_get_data "@rel" (env "@rel") = some ps)
    (hne : ps ≠ [])
    (hv : dictGet? ps "rel" = some v)
    (hm : pyInt? v = some m) :
    telnet_set_relay true st env = Except.ok (decide (m = t)) := by
  have hcheck : relayCheck t (telnet_get_data "@rel" (env "@rel")) = decide (m = t) := by
    rw [hrel]
    cases ps with
    | nil => exact absurd rfl hne
    | cons p rest =>
        show (match dictGet? (p :: rest) "rel" with
          | none => false
          | some v =>
              match pyInt? v with
              | none => false
              | some m => decide (m = t)) = decide (m = t)
        rw [hv]
        show (match pyInt? v with
          | none => false
          | some m => decide (m = t)) = decide (m = t)
        rw [hm]
  unfold telnet_set_relay
  rw [if_pos rfl, ht]
  show Except.ok (relayCheck t (telnet_get_data "@rel" (env "@rel"))) =
    Except.ok (decide (m = t))
  rw [hcheck]

/-- Claim C9 witness: `set_relay("on")` against an echo of `rel=1`
returns `true`, against an echo of `rel=0` returns `false`. -/
theorem claim9_relay_witness :
    (telnet_set_relay true "on"
        (fun c => if c = "@rel" then RTOutcome.readOk "@rel\nrel=1\nx\ny"
          else RTOutcome.writeRaises) = Except.ok true) ∧
    (telnet_set_relay true "on"
        (fun c => if c = "@rel" then RTOutcome.readOk "@rel\nrel=0\nx\ny"
          else RTOutcome.writeRaises) = Except.ok false) :=
  ⟨claim9_relay "on" 1 _ [("rel", "1")] "1" 1
      (by decide) (by decide) (by decide) (by decide) (by decide),
   claim9_relay "on" 1 _ [("rel", "0")] "0" 0
      (by decide) (by decide) (by decide) (by decide) (by decide)⟩

/-! ## Claim C10 -/

/-- Claim C10: the `@sta` and `@inf` merges are guarded by the `@dat`
parse result; when the `@dat` round trip yields `None`, nothing of the
(possibly successfully parsed) `@sta`/`@inf` responses reaches the
Reading Set — after the call only the client-derived fields can differ
from the pre-call contents. -/
theorem claim10_guard (env : String → RTOutcome) (d0 d : Data) (b : Bool) (k : String)
    (hdat : telnet_get_data "@dat" (env "@dat") = none)
    (hres : async_get_data true env d0 = Except.ok (b, d))
    (hk : k ∉ derivedKeys) :
    dictGet? d k = dictGet? d0 k := by
  have hd : d = resultData (fetchTry env d0) := async_true_data hres
  subst hd
  simp [derivedKeys] at hk
  obtain ⟨n1, n2, n3, n4, n5, n6⟩ := hk
  exact fetchTry_dat_none_preserve k hdat n1 n2 n3 n4 n5 n6

/-- Claim C10 witness: a fetch whose `@dat` round trip returned `None`
(here the write raised), leaving `produced_power` untouched even though
the `@sta` stream was live. -/
theorem claim10_guard_witness :
    telnet_get_data "@dat" ((fun _ => RTOutcome.writeRaises : String → RTOutcome) "@dat") = none ∧
    async_get_data true (fun _ => RTOutcome.writeRaises) initData =
      Except.ok (true, initFetched) ∧
    ("produced_power" ∉ derivedKeys) ∧
    dictGet? initFetched "produced_power" = dictGet? initData "produced_power" :=
  ⟨by decide, by decide, by decide,
   claim10_guard (fun _ => RTOutcome.writeRaises) initData initFetched true "produced_power"
     (by decide) (by decide) (by decide)⟩

end Elios4You
